import Mathlib

/-!
Shallow embedding of the `@entrolytics/node` SDK (`src/Entrolytics.ts`,
`src/errors.ts`) and verification of its specification claims.

The SDK is a validate-then-POST HTTP client.  Each send-family method is
embedded as a pure function of the client state, the call arguments, and a
`FetchOutcome` describing what the single `fetch` call did (responded,
was aborted by the internal timer, failed with a transport `TypeError`,
or failed with some other exception).  The function returns the request
that was posted (if any network activity happened at all) together with
the result: the returned response or the raised error, both embedded as
data.
-/

set_option autoImplicit false

namespace Entro

/-- Runtime values storable in event data / the property bag
(`string | number | boolean | Date | null` in the source). -/
inductive JsVal where
  | str (s : String)
  | num (n : Int)
  | bool (b : Bool)
  | date (ms : Nat)
  | null
deriving DecidableEq, Repr

/-- A JavaScript object with these values: an insertion-ordered
association list with distinct keys. -/
abbrev JsObj := List (String × JsVal)

/-- JavaScript truthiness of an optional value (`undefined`, `null`, `''`,
`0` and `false` are falsy). -/
def truthy : Option JsVal → Bool
  | none => false
  | some (.str s) => s ≠ ""
  | some (.num n) => n ≠ 0
  | some (.bool b) => b
  | some (.date _) => true
  | some .null => false

/-- JavaScript truthiness restricted to an optional string
(`undefined` and `''` are falsy). -/
def truthyStr : Option String → Bool
  | none => false
  | some s => s ≠ ""

/-- `a || b` on optional strings, as JavaScript evaluates it. -/
def orStr (a b : Option String) : Option String :=
  if truthyStr a then a else b

/-- Coerce an optional string through `if (!x) throw`: the result is `some`
exactly when the value is present and non-empty. -/
def checkStr (v : Option String) : Option String :=
  match v with
  | none => none
  | some s => if s = "" then none else some s

/-- `parseInt(s, 10)`: skip ASCII whitespace, read an optional sign and a
decimal-digit prefix; `none` models the `NaN` result when no digit is
found. -/
def parseIntJS (s : String) : Option Int :=
  let cs := s.data.dropWhile (fun c => c = ' ' ∨ c = '\t' ∨ c = '\n' ∨ c = '\r')
  let signAndRest : Int × List Char :=
    match cs with
    | '-' :: t => (-1, t)
    | '+' :: t => (1, t)
    | t => (1, t)
  let ds := signAndRest.2.takeWhile Char.isDigit
  if ds.isEmpty then none
  else some (signAndRest.1 * (ds.foldl (fun a c => a * 10 + (c.toNat - 48)) 0 : Nat))

/-- Object spread merge `{...a, ...b}`: keys of `a` keep their position
(values overridden by `b` where `b` also has the key), keys only in `b`
are appended in order. -/
def objMerge (a b : JsObj) : JsObj :=
  a.map (fun p => (p.1, (b.lookup p.1).getD p.2)) ++
    b.filter (fun q => (a.lookup q.1).isNone)

theorem lookup_append_obj (l₁ l₂ : JsObj) (k : String) :
    (l₁ ++ l₂).lookup k =
      match l₁.lookup k with
      | some v => some v
      | none => l₂.lookup k := by
  induction l₁ with
  | nil => simp [List.lookup]
  | cons p t ih =>
    by_cases hk : k = p.1
    · subst hk; simp [List.lookup]
    · have hbeq : (k == p.1) = false := by simp [hk]
      simpa [List.lookup, hbeq] using ih

theorem lookup_filter_key (P : String → Bool) (b : JsObj) (k : String) :
    (b.filter (fun q => P q.1)).lookup k = if P k then b.lookup k else none := by
  induction b with
  | nil => simp [List.filter]
  | cons p t ih =>
    by_cases hk : k = p.1
    · subst hk
      cases hP : P p.1 with
      | true => simp [List.filter, hP, List.lookup]
      | false => simpa [List.filter, hP, List.lookup] using ih
    · have hbeq : (k == p.1) = false := by simp [hk]
      cases hP : P p.1 with
      | true => simpa [List.filter, hP, List.lookup, hbeq] using ih
      | false => simpa [List.filter, hP, List.lookup, hbeq] using ih

theorem lookup_map_entry (f : String → JsVal → JsVal) (a : JsObj) (k : String) :
    (a.map (fun p => (p.1, f p.1 p.2))).lookup k = (a.lookup k).map (f k) := by
  induction a with
  | nil => simp [List.lookup]
  | cons p t ih =>
    by_cases hk : k = p.1
    · subst hk; simp [List.lookup]
    · have hbeq : (k == p.1) = false := by simp [hk]
      simpa [List.lookup, hbeq] using ih

theorem lookup_objMerge (a b : JsObj) (k : String) :
    (objMerge a b).lookup k =
      match b.lookup k with
      | some v => some v
      | none => a.lookup k := by
  rw [objMerge, lookup_append_obj,
    lookup_map_entry (fun key v => (b.lookup key).getD v) a k,
    lookup_filter_key (fun key => (a.lookup key).isNone) b k]
  cases ha : a.lookup k <;> cases hb : b.lookup k <;> simp [ha, hb]

theorem lookup_objMerge_right {b : JsObj} (a : JsObj) {k : String} {v : JsVal}
    (h : b.lookup k = some v) : (objMerge a b).lookup k = some v := by
  rw [lookup_objMerge, h]

theorem lookup_objMerge_left {b : JsObj} (a : JsObj) {k : String}
    (h : b.lookup k = none) : (objMerge a b).lookup k = a.lookup k := by
  rw [lookup_objMerge, h]

/-! ## Error taxonomy (`src/errors.ts`)

Each error class is embedded as a constructor carrying the data its
constructor stores.  Errors of the four collector methods that are NOT
instances of the SDK classes (exceptions from `fetch` rethrown
unchanged) are embedded as the `abortErr` / `rawTypeError` / `other`
constructors. -/

/-- The parsed-or-raw body stored on an `ApiError` (`response.json()`
result when it parses, otherwise `response.text()`). The parsed JSON
document is kept opaque as its source string. -/
inductive BodyVal where
  | json (doc : String)
  | text (s : String)
deriving DecidableEq, Repr

/-- An HTTP `Response` as the SDK observes it: `ok` flag, status code,
the `Retry-After` header (`none` = header absent), whether
`response.json()` parses (and to what), and the `response.text()`
fallback. -/
structure HttpResponse where
  ok : Bool
  status : Nat
  retryAfterHeader : Option String := none
  bodyJson : Option String := none
  bodyText : String := ""
deriving DecidableEq, Repr

/-- Errors a send-family call can complete with.

`rateLimit` carries `RateLimitError.retryAfter`: the outer `Option` is
`undefined` vs a number, the inner `Option` is an integer vs `NaN`
(from `parseInt`).  `abortErr` is a raw `AbortError` escaping a method
with no catch clause; `rawTypeError` is a raw `TypeError` doing the
same; `other` is any other exception rethrown unchanged. -/
inductive SdkError where
  | configuration (field : String)
  | validation (field : String)
  | api (status : Nat) (response : HttpResponse) (body : Option BodyVal)
  | rateLimit (retryAfter : Option (Option Int))
  | timeout (ms : Nat)
  | network (msg : String)
  | abortErr
  | rawTypeError (msg : String)
  | other (msg : String)
deriving DecidableEq, Repr

/-! ## Client configuration and state (`src/Entrolytics.ts`) -/

/-- The `endpoint` configuration variant. -/
inductive Endpoint where
  | standard
  | edge
  | native
deriving DecidableEq, Repr

/-- `EntrolyticsOptions`: all fields optional at the type level
(`none` = the field is `undefined`). -/
structure EntrolyticsOptions where
  hostUrl : Option String := none
  websiteId : Option String := none
  sessionId : Option String := none
  userAgent : Option String := none
  timeout : Option Nat := none
  endpoint : Option Endpoint := none
  deployId : Option String := none
  gitSha : Option String := none
  gitBranch : Option String := none
deriving DecidableEq, Repr

/-- The private `deploymentInfo` record (`Partial<DeploymentInfo>`). -/
structure DeploymentInfoRec where
  deployId : Option String := none
  gitSha : Option String := none
  gitBranch : Option String := none
  deployUrl : Option String := none
deriving DecidableEq, Repr

/-- The mutable state of an `Entrolytics` instance. -/
structure ClientState where
  options : EntrolyticsOptions
  properties : JsObj := []
  deploymentInfo : DeploymentInfoRec := {}
deriving DecidableEq, Repr

/-- `detectDeploymentInfo()`: scan an environment (a string-to-string
map) with `||` chains, first truthy value wins. -/
def detectDeploymentInfo (env : List (String × String)) : DeploymentInfoRec :=
  let get := fun (k : String) => env.lookup k
  { deployId := orStr (get "VERCEL_DEPLOYMENT_ID") (orStr (get "DEPLOY_ID")
      (orStr (get "CF_PAGES_COMMIT_SHA") none))
    gitSha := orStr (get "VERCEL_GIT_COMMIT_SHA") (orStr (get "COMMIT_REF")
      (orStr (get "CF_PAGES_COMMIT_SHA") (orStr (get "GITHUB_SHA") none)))
    gitBranch := orStr (get "VERCEL_GIT_COMMIT_REF") (orStr (get "BRANCH")
      (orStr (get "CF_PAGES_BRANCH") (orStr (get "GITHUB_REF_NAME") none)))
    deployUrl :=
      match get "VERCEL_URL" with
      | some u =>
        if u = "" then orStr (get "DEPLOY_URL") (orStr (get "CF_PAGES_URL") none)
        else some ("https://" ++ u)
      | none => orStr (get "DEPLOY_URL") (orStr (get "CF_PAGES_URL") none) }

/-- The constructor `new Entrolytics(options)`: defaults and detected
deployment fields are overridden by fields present in `options`. -/
def mkClient (env : List (String × String)) (options : EntrolyticsOptions) : ClientState :=
  let det := detectDeploymentInfo env
  { options :=
      { hostUrl := options.hostUrl
        websiteId := options.websiteId
        sessionId := options.sessionId
        userAgent := options.userAgent
        timeout := options.timeout.orElse (fun _ => some 10000)
        endpoint := options.endpoint.orElse (fun _ => some .standard)
        deployId := options.deployId.orElse (fun _ => det.deployId)
        gitSha := options.gitSha.orElse (fun _ => det.gitSha)
        gitBranch := options.gitBranch.orElse (fun _ => det.gitBranch) }
    properties := []
    deploymentInfo := det }

/-- `init(options)`: spread-merge the new options over the old, fields
present in the argument win. -/
def initClient (st : ClientState) (options : EntrolyticsOptions) : ClientState :=
  { st with options :=
    { hostUrl := options.hostUrl.orElse (fun _ => st.options.hostUrl)
      websiteId := options.websiteId.orElse (fun _ => st.options.websiteId)
      sessionId := options.sessionId.orElse (fun _ => st.options.sessionId)
      userAgent := options.userAgent.orElse (fun _ => st.options.userAgent)
      timeout := options.timeout.orElse (fun _ => st.options.timeout)
      endpoint := options.endpoint.orElse (fun _ => st.options.endpoint)
      deployId := options.deployId.orElse (fun _ => st.options.deployId)
      gitSha := options.gitSha.orElse (fun _ => st.options.gitSha)
      gitBranch := options.gitBranch.orElse (fun _ => st.options.gitBranch) } }

/-! ## Payloads and requests -/

/-- `SendType` discriminator. -/
inductive SendType where
  | event
  | identify
deriving DecidableEq, Repr

/-- `EntrolyticsPayload`: the JSON object handed to `send`. A `none`
field is `undefined` and is dropped by `JSON.stringify`. `session` may
hold any runtime value (it is copied from the identify argument). -/
structure EntrolyticsPayload where
  website : String
  session : Option JsVal := none
  hostname : Option String := none
  language : Option String := none
  referrer : Option String := none
  screen : Option String := none
  title : Option String := none
  url : Option String := none
  name : Option String := none
  data : Option JsObj := none
deriving DecidableEq, Repr

/-- `WebVitalMetric`. -/
inductive WebVitalMetric where
  | lcp
  | inp
  | cls
  | ttfb
  | fcp
deriving DecidableEq, Repr

/-- `WebVitalRating`. -/
inductive WebVitalRating where
  | good
  | needsImprovement
  | poor
deriving DecidableEq, Repr

/-- `NavigationType`. -/
inductive NavigationType where
  | navigate
  | reload
  | backForward
  | backForwardCache
  | prerender
  | restore
deriving DecidableEq, Repr

/-- `TrackVitalOptions` (the numeric metric value is kept opaque as an
integer id; no claim computes with it). -/
structure TrackVitalOptions where
  metric : WebVitalMetric
  value : Int
  rating : WebVitalRating
  delta : Option Int := none
  id : Option String := none
  navigationType : Option NavigationType := none
  attribution : Option JsObj := none
  url : Option String := none
  path : Option String := none
deriving DecidableEq, Repr

/-- The flat payload `trackVital` posts: `website` plus the option
fields, written out field by field as in the source. -/
structure VitalPayload where
  website : String
  metric : WebVitalMetric
  value : Int
  rating : WebVitalRating
  delta : Option Int
  id : Option String
  navigationType : Option NavigationType
  attribution : Option JsObj
  url : Option String
  path : Option String
deriving DecidableEq, Repr

/-- `TrackVitalsBatchOptions`: entries come without their own url/path
(`Omit`), the batch-level url/path apply. -/
structure TrackVitalsBatchOptions where
  vitals : List TrackVitalOptions
  url : Option String := none
  path : Option String := none
deriving DecidableEq, Repr

/-- The payload `trackVitalsBatch` posts. -/
structure VitalsBatchPayload where
  website : String
  vitals : List TrackVitalOptions
deriving DecidableEq, Repr

/-- `FormEventType`. -/
inductive FormEventType where
  | start
  | fieldFocus
  | fieldBlur
  | fieldError
  | submit
  | abandon
deriving DecidableEq, Repr

/-- `TrackFormOptions`. -/
structure TrackFormOptions where
  eventType : FormEventType
  formId : String
  formName : Option String := none
  urlPath : String
  fieldName : Option String := none
  fieldType : Option String := none
  fieldIndex : Option Nat := none
  timeOnField : Option Nat := none
  timeSinceStart : Option Nat := none
  errorMessage : Option String := none
  success : Option Bool := none
deriving DecidableEq, Repr

/-- `TrackFormBatchOptions`. -/
structure TrackFormBatchOptions where
  events : List TrackFormOptions
deriving DecidableEq, Repr

/-- The payload `trackForm` posts: `website` spread with the options. -/
structure FormPayload where
  website : String
  event : TrackFormOptions
deriving DecidableEq, Repr

/-- The payload `trackFormBatch` posts. -/
structure FormBatchPayload where
  website : String
  events : List TrackFormOptions
deriving DecidableEq, Repr

/-- The body of a POST issued by the SDK. The `send` path posts
`JSON.stringify({type, payload})`; the collectors post their flat
payloads. -/
inductive RequestBody where
  | send (type : SendType) (payload : EntrolyticsPayload)
  | vital (p : VitalPayload)
  | vitalsBatch (p : VitalsBatchPayload)
  | form (p : FormPayload)
  | formBatch (p : FormBatchPayload)
deriving DecidableEq, Repr

/-- A POST the SDK issued: target path (relative to the host URL) and
body.  `userAgent` is the `User-Agent` header: the truthy configured
override as `some`, `none` when the generated default is used or (on
the collector paths) when no such header is sent. -/
structure PostedRequest where
  path : String
  body : RequestBody
  userAgent : Option String := none
deriving DecidableEq, Repr

/-- What the single `fetch` call of an operation did. `aborted` means
the internal cancellation timer fired and `fetch` rejected with an
`AbortError`; `typeError` is a transport failure (`TypeError`); `failed`
is any other exception. -/
inductive FetchOutcome where
  | resp (r : HttpResponse)
  | aborted
  | typeError (msg : String)
  | failed (msg : String)
deriving DecidableEq, Repr

/-- The observable effect of one send-family call: the request that went
out (`none` when the call failed before any network activity) and the
returned response or raised error. -/
structure CallResult where
  request : Option PostedRequest
  result : Except SdkError HttpResponse
deriving Repr

instance : DecidableEq (Except SdkError HttpResponse) := fun a b =>
  match a, b with
  | .ok x, .ok y =>
    if h : x = y then .isTrue (by rw [h]) else .isFalse (by simp [h])
  | .ok _, .error _ => .isFalse (by simp)
  | .error _, .ok _ => .isFalse (by simp)
  | .error x, .error y =>
    if h : x = y then .isTrue (by rw [h]) else .isFalse (by simp [h])

instance : DecidableEq CallResult := fun a b =>
  if h : a.request = b.request ∧ a.result = b.result then
    .isTrue (by cases a; cases b; simp_all)
  else .isFalse (by cases a; cases b; simp_all)

/-! ## The dispatch method `send` -/

/-- `getEndpointPath()`: resolve the path from the endpoint variant
(the `default` switch arm also covers an unset variant). -/
def getEndpointPath (o : EntrolyticsOptions) : String :=
  match o.endpoint with
  | some .edge => "/api/send-edge"
  | some .native => "/api/send-native"
  | some .standard => "/api/send"
  | none => "/api/send"

/-- `send(payload, type)`.  The `hostUrl` check precedes the timer and
the fetch.  A non-ok response raises: 429 becomes `RateLimitError`
with `retryAfter ? parseInt(retryAfter, 10) : undefined`; any other
status becomes `ApiError` with the JSON-parsed body or the text
fallback.  The catch clause rethrows the SDK errors, maps an
`AbortError` to `TimeoutError(timeout)` (with the destructuring
default `timeout = 10000`), wraps a `TypeError` into `NetworkError`,
and rethrows anything else. -/
def send (st : ClientState) (payload : EntrolyticsPayload) (type : SendType)
    (outcome : FetchOutcome) : CallResult :=
  match checkStr st.options.hostUrl with
  | none => ⟨none, .error (.configuration "hostUrl")⟩
  | some _ =>
    let req : PostedRequest :=
      { path := getEndpointPath st.options
        body := .send type payload
        userAgent := if truthyStr st.options.userAgent then st.options.userAgent else none }
    let result : Except SdkError HttpResponse :=
      match outcome with
      | .resp r =>
        if r.ok then .ok r
        else if r.status = 429 then
          .error (.rateLimit
            (match r.retryAfterHeader with
             | none => none
             | some s => if s = "" then none else some (parseIntJS s)))
        else
          .error (.api r.status r
            (some (match r.bodyJson with
                   | some j => .json j
                   | none => .text r.bodyText)))
      | .aborted => .error (.timeout (st.options.timeout.getD 10000))
      | .typeError m => .error (.network ("Network request failed: " ++ m))
      | .failed m => .error (.other m)
    ⟨some req, result⟩

/-! ## Typed send operations -/

/-- `TrackPageOptions` (all fields optional at runtime). -/
structure TrackPageOptions where
  url : Option String := none
  title : Option String := none
  referrer : Option String := none
  hostname : Option String := none
  language : Option String := none
  screen : Option String := none
deriving DecidableEq, Repr

/-- `TrackEventOptions` (`TrackPageOptions` plus `name` and `data`). -/
structure TrackEventOptions where
  url : Option String := none
  title : Option String := none
  referrer : Option String := none
  hostname : Option String := none
  language : Option String := none
  screen : Option String := none
  name : Option String := none
  data : Option JsObj := none
deriving DecidableEq, Repr

/-- `trackPageView(options)`: check `websiteId`, check `options.url`,
then dispatch `{website: websiteId, ...options}` as an event. -/
def trackPageView (st : ClientState) (o : TrackPageOptions)
    (outcome : FetchOutcome) : CallResult :=
  match checkStr st.options.websiteId with
  | none => ⟨none, .error (.configuration "websiteId")⟩
  | some w =>
    if truthyStr o.url then
      send st
        { website := w, url := o.url, title := o.title, referrer := o.referrer,
          hostname := o.hostname, language := o.language, screen := o.screen }
        .event outcome
    else ⟨none, .error (.validation "url")⟩

/-- `trackEvent(options)`: check `websiteId`, check `options.name`,
then dispatch `{website: websiteId, ...options}` as an event. -/
def trackEvent (st : ClientState) (o : TrackEventOptions)
    (outcome : FetchOutcome) : CallResult :=
  match checkStr st.options.websiteId with
  | none => ⟨none, .error (.configuration "websiteId")⟩
  | some w =>
    if truthyStr o.name then
      send st
        { website := w, url := o.url, title := o.title, referrer := o.referrer,
          hostname := o.hostname, language := o.language, screen := o.screen,
          name := o.name, data := o.data }
        .event outcome
    else ⟨none, .error (.validation "name")⟩

/-- The two runtime shapes of the first argument of `track`. -/
inductive TrackArg where
  | byName (s : String)
  | byOptions (o : TrackEventOptions)
deriving DecidableEq, Repr

/-- The payload `track` dispatches for each argument shape.  In the
object branch `data` is `eventData || event.data`, and the explicit
`eventData` argument is an object, hence truthy whenever present. -/
def trackPayload (w : String) (arg : TrackArg) (eventData : Option JsObj) :
    EntrolyticsPayload :=
  match arg with
  | .byName s => { website := w, name := some s, data := eventData }
  | .byOptions o =>
    { website := w, url := o.url, title := o.title, referrer := o.referrer,
      hostname := o.hostname, language := o.language, screen := o.screen,
      name := o.name,
      data := match eventData with
              | some d => some d
              | none => o.data }

/-- `track(event, eventData?)`: check `websiteId`, then dispatch the
shape-dependent payload as an event (no further validation). -/
def track (st : ClientState) (arg : TrackArg) (eventData : Option JsObj)
    (outcome : FetchOutcome) : CallResult :=
  match checkStr st.options.websiteId with
  | none => ⟨none, .error (.configuration "websiteId")⟩
  | some w => send st (trackPayload w arg eventData) .event outcome

/-- `identify(properties)`: check `websiteId`, spread-merge the argument
into `this.properties`, then dispatch the full merged bag as the
`identify` payload data with `session` equal to
`properties.sessionId || sessionId`. -/
def identify (st : ClientState) (props : JsObj) (outcome : FetchOutcome) :
    ClientState × CallResult :=
  match checkStr st.options.websiteId with
  | none => (st, ⟨none, .error (.configuration "websiteId")⟩)
  | some w =>
    let merged := objMerge st.properties props
    let st' := { st with properties := merged }
    let sess : Option JsVal :=
      let pv := props.lookup "sessionId"
      if truthy pv then pv else st.options.sessionId.map .str
    (st', send st' { website := w, session := sess, data := some merged }
      .identify outcome)

/-! ## Property management -/

/-- `setProperty(key, value)`: in-place indexed assignment on the
property object. -/
def setProperty (st : ClientState) (k : String) (v : JsVal) : ClientState :=
  { st with properties :=
      if (st.properties.lookup k).isSome then
        st.properties.map (fun p => if p.1 = k then (k, v) else p)
      else st.properties ++ [(k, v)] }

/-- `setProperties(map)`: spread-merge into the bag. -/
def setProperties (st : ClientState) (m : JsObj) : ClientState :=
  { st with properties := objMerge st.properties m }

/-- `getProperties()`: a shallow copy of the bag. -/
def getProperties (st : ClientState) : JsObj :=
  st.properties

/-- `reset()`: empty the bag. -/
def resetProps (st : ClientState) : ClientState :=
  { st with properties := [] }

/-- `clearProperty(key)`: `delete this.properties[key]`. -/
def clearProperty (st : ClientState) (k : String) : ClientState :=
  { st with properties := st.properties.filter (fun p => p.1 ≠ k) }

/-! ## Specialized collectors (web vitals, forms)

All four methods share the same fetch shape: no catch clause, so every
fetch rejection propagates unchanged, and a non-ok response raises
`ApiError(msg, response.status, response)` with no body argument. -/

/-- Response/rejection handling common to the four collector methods. -/
def collectorResult (outcome : FetchOutcome) : Except SdkError HttpResponse :=
  match outcome with
  | .resp r => if r.ok then .ok r else .error (.api r.status r none)
  | .aborted => .error .abortErr
  | .typeError m => .error (.rawTypeError m)
  | .failed m => .error (.other m)

/-- `trackVital(options)`: check `websiteId`, check `hostUrl`, then POST
the flat vital payload to `/api/collect/vitals`. -/
def trackVital (st : ClientState) (o : TrackVitalOptions)
    (outcome : FetchOutcome) : CallResult :=
  match checkStr st.options.websiteId with
  | none => ⟨none, .error (.configuration "websiteId")⟩
  | some w =>
    match checkStr st.options.hostUrl with
    | none => ⟨none, .error (.configuration "hostUrl")⟩
    | some _ =>
      let payload : VitalPayload :=
        { website := w, metric := o.metric, value := o.value, rating := o.rating,
          delta := o.delta, id := o.id, navigationType := o.navigationType,
          attribution := o.attribution, url := o.url, path := o.path }
      ⟨some { path := "/api/collect/vitals", body := .vital payload },
        collectorResult outcome⟩

/-- `trackVitalsBatch(options)`: same endpoint; each entry is spread
with the batch-level `url`/`path` written over it. -/
def trackVitalsBatch (st : ClientState) (o : TrackVitalsBatchOptions)
    (outcome : FetchOutcome) : CallResult :=
  match checkStr st.options.websiteId with
  | none => ⟨none, .error (.configuration "websiteId")⟩
  | some w =>
    match checkStr st.options.hostUrl with
    | none => ⟨none, .error (.configuration "hostUrl")⟩
    | some _ =>
      let payload : VitalsBatchPayload :=
        { website := w
          vitals := o.vitals.map (fun v => { v with url := o.url, path := o.path }) }
      ⟨some { path := "/api/collect/vitals", body := .vitalsBatch payload },
        collectorResult outcome⟩

/-- `trackForm(options)`: POST `{website, ...options}` to
`/api/collect/forms`. -/
def trackForm (st : ClientState) (o : TrackFormOptions)
    (outcome : FetchOutcome) : CallResult :=
  match checkStr st.options.websiteId with
  | none => ⟨none, .error (.configuration "websiteId")⟩
  | some w =>
    match checkStr st.options.hostUrl with
    | none => ⟨none, .error (.configuration "hostUrl")⟩
    | some _ =>
      ⟨some { path := "/api/collect/forms", body := .form { website := w, event := o } },
        collectorResult outcome⟩

/-- `trackFormBatch(options)`: POST `{website, events}` to
`/api/collect/forms`. -/
def trackFormBatch (st : ClientState) (o : TrackFormBatchOptions)
    (outcome : FetchOutcome) : CallResult :=
  match checkStr st.options.websiteId with
  | none => ⟨none, .error (.configuration "websiteId")⟩
  | some w =>
    match checkStr st.options.hostUrl with
    | none => ⟨none, .error (.configuration "hostUrl")⟩
    | some _ =>
      ⟨some { path := "/api/collect/forms",
              body := .formBatch { website := w, events := o.events } },
        collectorResult outcome⟩

/-! ## Deployment info -/

/-- `setDeployment(deployment)`: spread-merge into the private record
(fields present in the argument always win, empty strings included);
mirror the three config fields with `||` (only truthy incoming values
win). -/
def setDeployment (st : ClientState) (d : DeploymentInfoRec) : ClientState :=
  { st with
    deploymentInfo :=
      { deployId := d.deployId.orElse (fun _ => st.deploymentInfo.deployId)
        gitSha := d.gitSha.orElse (fun _ => st.deploymentInfo.gitSha)
        gitBranch := d.gitBranch.orElse (fun _ => st.deploymentInfo.gitBranch)
        deployUrl := d.deployUrl.orElse (fun _ => st.deploymentInfo.deployUrl) }
    options :=
      { st.options with
        deployId := orStr d.deployId st.options.deployId
        gitSha := orStr d.gitSha st.options.gitSha
        gitBranch := orStr d.gitBranch st.options.gitBranch } }

/-- `getDeployment()`: a shallow copy of the private record. -/
def getDeployment (st : ClientState) : DeploymentInfoRec :=
  st.deploymentInfo

/-! ## Projections and concrete fixtures used by the claim theorems -/

/-- The `EntrolyticsPayload` a call posted on the `send` path, if any. -/
def sentPayload (c : CallResult) : Option EntrolyticsPayload :=
  match c.request with
  | some req =>
    match req.body with
    | .send _ p => some p
    | _ => none
  | none => none

/-- Look up a key in the `data` of the payload a call posted on the
`send` path. -/
def payloadDataGet (c : CallResult) (k : String) : Option JsVal :=
  match sentPayload c with
  | some p =>
    match p.data with
    | some d => d.lookup k
    | none => none
  | none => none

/-- A fully configured client. -/
def stFull : ClientState :=
  { options := { hostUrl := some "https://h.example", websiteId := some "site-1",
                 sessionId := some "sess-cfg", timeout := some 5000 } }

/-- A client missing only `hostUrl`. -/
def stNoHost : ClientState :=
  { options := { websiteId := some "site-1" } }

/-- A client missing only `websiteId`. -/
def stNoWebsite : ClientState :=
  { options := { hostUrl := some "https://h.example" } }

/-- A client with an empty configuration. -/
def stEmptyCfg : ClientState :=
  { options := {} }

/-- A sample web-vital call argument. -/
def vitalOpts : TrackVitalOptions :=
  { metric := .lcp, value := 1200, rating := .good }

/-- A sample form call argument. -/
def formOpts : TrackFormOptions :=
  { eventType := .start, formId := "f1", urlPath := "/signup" }

/-- A 429 response whose `Retry-After` header holds no integer. -/
def resp429Unparseable : HttpResponse :=
  { ok := false, status := 429, retryAfterHeader := some "soon" }

/-- A 429 response with `Retry-After: 30`. -/
def resp429Retry30 : HttpResponse :=
  { ok := false, status := 429, retryAfterHeader := some "30" }

/-- A client with deployment fields already set in both copies. -/
def stDeploy : ClientState :=
  { options := { deployId := some "d0", gitSha := some "abc", gitBranch := some "main" }
    deploymentInfo := { deployId := some "d0", gitSha := some "abc", gitBranch := some "main" } }

/-! ## Claim theorems -/

theorem checkStr_cases (v : Option String) :
    (checkStr v = none ∧ truthyStr v = false) ∨
      ∃ s, v = some s ∧ s ≠ "" ∧ checkStr v = some s ∧ truthyStr v = true := by
  cases v with
  | none => exact Or.inl ⟨rfl, rfl⟩
  | some s =>
    by_cases h : s = ""
    · exact Or.inl ⟨by simp [checkStr, h], by simp [truthyStr, h]⟩
    · exact Or.inr ⟨s, rfl, h, by simp [checkStr, h], by simp [truthyStr, h]⟩

theorem checkStr_none : checkStr none = none := rfl

/-- C1, counterexample: on a fully configured client whose timer aborts
a `trackVital` call, the raised error is the raw abort error
propagated out of the catch-less method, not a timeout error carrying
the configured duration (5000 here, default 10000) — so the claim
fails for the collector methods. -/
theorem claim1_counterexample :
    (trackVital stFull vitalOpts .aborted).result = .error .abortErr ∧
    SdkError.abortErr ≠ .timeout 5000 ∧ SdkError.abortErr ≠ .timeout 10000 := by
  refine ⟨rfl, by decide, by decide⟩

/-- C1 (amended): on a configured client, if the internal timer fires
before a response, `send` fails with the timeout error carrying the
configured timeout (default 10000 ms); the four collector methods
(`trackVital`, `trackVitalsBatch`, `trackForm`, `trackFormBatch`)
instead propagate the raw abort error unchanged — the request is
cancelled but no timeout error is produced. -/
theorem claim1_amended (st : ClientState) (w u : String)
    (hw : st.options.websiteId = some w) (hw' : w ≠ "")
    (hh : st.options.hostUrl = some u) (hu : u ≠ "") :
    (∀ p ty, (send st p ty .aborted).result =
      .error (.timeout (st.options.timeout.getD 10000))) ∧
    (∀ o, (trackVital st o .aborted).result = .error .abortErr) ∧
    (∀ o, (trackVitalsBatch st o .aborted).result = .error .abortErr) ∧
    (∀ o, (trackForm st o .aborted).result = .error .abortErr) ∧
    (∀ o, (trackFormBatch st o .aborted).result = .error .abortErr) := by
  refine ⟨fun p ty => ?_, fun o => ?_, fun o => ?_, fun o => ?_, fun o => ?_⟩ <;>
    simp [send, trackVital, trackVitalsBatch, trackForm, trackFormBatch,
      collectorResult, checkStr, hw, hh, hw', hu]

/-- C1, witness at the fully configured client (timeout 5000). -/
theorem claim1_witness :
    (send stFull { website := "site-1" } .event .aborted).result =
      .error (.timeout 5000) ∧
    (trackForm stFull formOpts .aborted).result = .error .abortErr := by
  have h := claim1_amended stFull "site-1" "https://h.example" rfl (by decide) rfl (by decide)
  exact ⟨h.1 { website := "site-1" } .event, h.2.2.2.1 formOpts⟩

/-- C2, counterexample: a 429 response whose `Retry-After` header is
present but unparseable (`"soon"`) makes `send` raise a rate-limit
error carrying `NaN` (`parseInt` of the header) — a retry-after value
is present, where the claim requires none. -/
theorem claim2_counterexample :
    (send stFull { website := "site-1" } .event (.resp resp429Unparseable)).result =
      .error (.rateLimit (some none)) ∧
    (some (none : Option Int) : Option (Option Int)) ≠ none := by
  refine ⟨by decide, by decide⟩

/-- C2 (amended): for a non-ok response on `send`: a 429 status raises a
rate-limit error whose retry-after is absent when the `Retry-After`
header is absent or empty, and is `parseInt(header, 10)` when the
header is non-empty (the parsed integer when the header has a decimal
integer prefix, `NaN` otherwise); any other status raises an API error
carrying the status code, the raw response, and the body parsed as
JSON or, when JSON parsing fails, as plain text. -/
theorem claim2_amended (st : ClientState) (p : EntrolyticsPayload) (ty : SendType)
    (r : HttpResponse) (u : String)
    (hh : st.options.hostUrl = some u) (hu : u ≠ "") (hok : r.ok = false) :
    (r.status = 429 → r.retryAfterHeader = none →
      (send st p ty (.resp r)).result = .error (.rateLimit none)) ∧
    (r.status = 429 → r.retryAfterHeader = some "" →
      (send st p ty (.resp r)).result = .error (.rateLimit none)) ∧
    (∀ s, r.status = 429 → r.retryAfterHeader = some s → s ≠ "" →
      (send st p ty (.resp r)).result = .error (.rateLimit (some (parseIntJS s)))) ∧
    (∀ j, r.status ≠ 429 → r.bodyJson = some j →
      (send st p ty (.resp r)).result = .error (.api r.status r (some (.json j)))) ∧
    (r.status ≠ 429 → r.bodyJson = none →
      (send st p ty (.resp r)).result = .error (.api r.status r (some (.text r.bodyText)))) := by
  refine ⟨fun h429 hra => ?_, fun h429 hra => ?_, fun s h429 hra hs => ?_,
    fun j h429 hj => ?_, fun h429 hj => ?_⟩ <;>
    simp [send, checkStr, hh, hu, hok, h429, *]

/-- C2, witness: `Retry-After: 30` yields a rate-limit error carrying
the integer 30. -/
theorem claim2_witness :
    (send stFull { website := "site-1" } .event (.resp resp429Retry30)).result =
      .error (.rateLimit (some (some 30))) := by
  have h := (claim2_amended stFull { website := "site-1" } .event resp429Retry30
    "https://h.example" rfl (by decide) rfl).2.2.1 "30" rfl rfl (by decide)
  rw [h]
  decide

/-- C3, counterexample: `setDeployment({gitSha: ''})` on a client whose
git SHA is `'abc'` in both copies overwrites the private
deployment-info record with the empty string (the object spread lets
every present field win) while the config mirror keeps `'abc'` — the
claim requires the old value to be kept in both copies. -/
theorem claim3_counterexample :
    (setDeployment stDeploy { gitSha := some "" }).deploymentInfo.gitSha = some "" ∧
    (setDeployment stDeploy { gitSha := some "" }).options.gitSha = some "abc" ∧
    (some "" : Option String) ≠ some "abc" := by
  refine ⟨rfl, rfl, by decide⟩

/-- C3 (amended): `setDeployment(d)` overwrites each field of the
private deployment-info record with the incoming value whenever the
field is present in `d` (empty values included), keeping the old value
only for absent fields; each of the three mirrored config fields
(deployId/gitSha/gitBranch) is updated only when the incoming value is
non-empty, else keeps its old value; all other config fields and the
property bag are unchanged. -/
theorem claim3_amended (st : ClientState) (d : DeploymentInfoRec) :
    ((setDeployment st d).deploymentInfo.deployId =
      match d.deployId with
      | some v => some v
      | none => st.deploymentInfo.deployId) ∧
    ((setDeployment st d).deploymentInfo.gitSha =
      match d.gitSha with
      | some v => some v
      | none => st.deploymentInfo.gitSha) ∧
    ((setDeployment st d).deploymentInfo.gitBranch =
      match d.gitBranch with
      | some v => some v
      | none => st.deploymentInfo.gitBranch) ∧
    ((setDeployment st d).deploymentInfo.deployUrl =
      match d.deployUrl with
      | some v => some v
      | none => st.deploymentInfo.deployUrl) ∧
    ((setDeployment st d).options.deployId =
      if truthyStr d.deployId then d.deployId else st.options.deployId) ∧
    ((setDeployment st d).options.gitSha =
      if truthyStr d.gitSha then d.gitSha else st.options.gitSha) ∧
    ((setDeployment st d).options.gitBranch =
      if truthyStr d.gitBranch then d.gitBranch else st.options.gitBranch) ∧
    (setDeployment st d).options.hostUrl = st.options.hostUrl ∧
    (setDeployment st d).options.websiteId = st.options.websiteId ∧
    (setDeployment st d).options.sessionId = st.options.sessionId ∧
    (setDeployment st d).options.userAgent = st.options.userAgent ∧
    (setDeployment st d).options.timeout = st.options.timeout ∧
    (setDeployment st d).options.endpoint = st.options.endpoint ∧
    (setDeployment st d).properties = st.properties := by
  obtain ⟨di, gs, gb, du⟩ := d
  cases di <;> cases gs <;> cases gb <;> cases du <;>
    simp [setDeployment, orStr, Option.orElse]

/-- C4, counterexample: with both `hostUrl` and `websiteId` absent,
`trackVital` fails with a configuration error naming `websiteId`, not
`hostUrl` (its `websiteId` check runs first) — the claim requires
`hostUrl` to be named for every config missing `hostUrl`. -/
theorem claim4_counterexample :
    (trackVital stEmptyCfg vitalOpts .aborted).result =
      .error (.configuration "websiteId") ∧
    SdkError.configuration "websiteId" ≠ .configuration "hostUrl" := by
  refine ⟨rfl, by decide⟩

/-- C4 (amended): with `hostUrl` absent, `send` always fails with a
configuration error naming `hostUrl` and issues no request; each of
the four collector methods issues no request and fails with a
configuration error naming `hostUrl` when `websiteId` is configured
and non-empty, but naming `websiteId` otherwise. -/
theorem claim4_amended (st : ClientState) (hh : st.options.hostUrl = none) :
    (∀ p ty outc, send st p ty outc = ⟨none, .error (.configuration "hostUrl")⟩) ∧
    (∀ o outc, trackVital st o outc =
      ⟨none, .error (.configuration
        (if truthyStr st.options.websiteId then "hostUrl" else "websiteId"))⟩) ∧
    (∀ o outc, trackVitalsBatch st o outc =
      ⟨none, .error (.configuration
        (if truthyStr st.options.websiteId then "hostUrl" else "websiteId"))⟩) ∧
    (∀ o outc, trackForm st o outc =
      ⟨none, .error (.configuration
        (if truthyStr st.options.websiteId then "hostUrl" else "websiteId"))⟩) ∧
    (∀ o outc, trackFormBatch st o outc =
      ⟨none, .error (.configuration
        (if truthyStr st.options.websiteId then "hostUrl" else "websiteId"))⟩) := by
  refine ⟨fun p ty outc => by simp [send, checkStr, hh],
    fun o outc => ?_, fun o outc => ?_, fun o outc => ?_, fun o outc => ?_⟩ <;>
  · rcases checkStr_cases st.options.websiteId with ⟨h1, h2⟩ | ⟨s, hv, hs, h1, h2⟩ <;>
      simp [trackVital, trackVitalsBatch, trackForm, trackFormBatch,
        hh, h1, h2, checkStr_none]

/-- C4, witness at a config missing only `hostUrl`. -/
theorem claim4_witness :
    send stNoHost { website := "site-1" } .event .aborted =
      ⟨none, .error (.configuration "hostUrl")⟩ ∧
    trackVital stNoHost vitalOpts .aborted =
      ⟨none, .error (.configuration "hostUrl")⟩ := by
  have h := claim4_amended stNoHost rfl
  refine ⟨h.1 _ _ _, ?_⟩
  rw [h.2.1 vitalOpts .aborted]
  decide

/-- C5: with `websiteId` absent, every tracking call fails with a
configuration error naming `websiteId`, issues no request, and (for
`identify`) leaves the state untouched; on a client with `websiteId`
configured, `trackPageView` with an absent or empty `url` fails with a
validation error naming `url`, and `trackEvent` with an absent or
empty `name` fails with a validation error naming `name`, both with no
request issued. -/
theorem claim5 (st st2 : ClientState) (w : String)
    (hw : st.options.websiteId = none)
    (hw2 : st2.options.websiteId = some w) (hw2' : w ≠ "") :
    (∀ o outc, trackPageView st o outc = ⟨none, .error (.configuration "websiteId")⟩) ∧
    (∀ o outc, trackEvent st o outc = ⟨none, .error (.configuration "websiteId")⟩) ∧
    (∀ a ed outc, track st a ed outc = ⟨none, .error (.configuration "websiteId")⟩) ∧
    (∀ props outc, identify st props outc =
      (st, ⟨none, .error (.configuration "websiteId")⟩)) ∧
    (∀ o outc, trackVital st o outc = ⟨none, .error (.configuration "websiteId")⟩) ∧
    (∀ o outc, trackVitalsBatch st o outc =
      ⟨none, .error (.configuration "websiteId")⟩) ∧
    (∀ o outc, trackForm st o outc = ⟨none, .error (.configuration "websiteId")⟩) ∧
    (∀ o outc, trackFormBatch st o outc =
      ⟨none, .error (.configuration "websiteId")⟩) ∧
    (∀ o outc, o.url = none ∨ o.url = some "" →
      trackPageView st2 o outc = ⟨none, .error (.validation "url")⟩) ∧
    (∀ o outc, o.name = none ∨ o.name = some "" →
      trackEvent st2 o outc = ⟨none, .error (.validation "name")⟩) := by
  refine ⟨fun o outc => ?_, fun o outc => ?_, fun a ed outc => ?_, fun props outc => ?_,
    fun o outc => ?_, fun o outc => ?_, fun o outc => ?_, fun o outc => ?_,
    fun o outc hurl => ?_, fun o outc hname => ?_⟩
  · simp [trackPageView, checkStr, hw]
  · simp [trackEvent, checkStr, hw]
  · simp [track, checkStr, hw]
  · simp [identify, checkStr, hw]
  · simp [trackVital, checkStr, hw]
  · simp [trackVitalsBatch, checkStr, hw]
  · simp [trackForm, checkStr, hw]
  · simp [trackFormBatch, checkStr, hw]
  · rcases hurl with h | h <;> simp [trackPageView, checkStr, hw2, hw2', truthyStr, h]
  · rcases hname with h | h <;> simp [trackEvent, checkStr, hw2, hw2', truthyStr, h]

/-- C5, witness: missing `websiteId`, then missing `url`, then missing
`name`, each at a concrete call. -/
theorem claim5_witness :
    trackPageView stNoWebsite { url := some "/x" } .aborted =
      ⟨none, .error (.configuration "websiteId")⟩ ∧
    trackPageView stFull {} .aborted = ⟨none, .error (.validation "url")⟩ ∧
    trackEvent stFull { url := some "/x" } .aborted =
      ⟨none, .error (.validation "name")⟩ := by
  have h := claim5 stNoWebsite stFull "site-1" rfl rfl (by decide)
  exact ⟨h.1 _ _, h.2.2.2.2.2.2.2.2.1 {} .aborted (Or.inl rfl),
    h.2.2.2.2.2.2.2.2.2 { url := some "/x" } .aborted (Or.inl rfl)⟩

/-- C6: on a configured client, every non-ok response to `trackVital` —
status 429 included — raises a generic API error carrying the status
code (and no body), which is never a rate-limit error. -/
theorem claim6 (st : ClientState) (o : TrackVitalOptions) (r : HttpResponse)
    (w u : String)
    (hw : st.options.websiteId = some w) (hw' : w ≠ "")
    (hh : st.options.hostUrl = some u) (hu : u ≠ "")
    (hok : r.ok = false) :
    (trackVital st o (.resp r)).result = .error (.api r.status r none) ∧
    ∀ ra, SdkError.api r.status r none ≠ .rateLimit ra := by
  refine ⟨?_, fun ra => by simp⟩
  simp [trackVital, collectorResult, checkStr, hw, hw', hh, hu, hok]

/-- C6, witness at a 429 response. -/
theorem claim6_witness :
    (trackVital stFull vitalOpts (.resp resp429Retry30)).result =
      .error (.api 429 resp429Retry30 none) := by
  exact (claim6 stFull vitalOpts resp429Retry30 "site-1" "https://h.example"
    rfl (by decide) rfl (by decide) rfl).1

/-- C7: with `websiteId` configured, `track(s)` and `track({name: s})`
make equal calls with equal payloads, both without a data field; an
explicit data argument wins over data embedded in the options object,
and with no explicit argument the embedded data is used. -/
theorem claim7 (st : ClientState) (w : String)
    (hw : st.options.websiteId = some w) (hw' : w ≠ "") :
    (∀ s outc, track st (.byName s) none outc =
      track st (.byOptions { name := some s }) none outc) ∧
    (∀ s, trackPayload w (.byName s) none =
      trackPayload w (.byOptions { name := some s }) none) ∧
    (∀ s, (trackPayload w (.byName s) none).data = none) ∧
    (∀ o d, (trackPayload w (.byOptions o) (some d)).data = some d) ∧
    (∀ o, (trackPayload w (.byOptions o) none).data = o.data) := by
  refine ⟨fun s outc => ?_, fun s => rfl, fun s => rfl, fun o d => rfl, fun o => rfl⟩
  simp only [track, checkStr, hw]
  rw [if_neg hw']
  rfl

/-- C7, witness at the event name `click`. -/
theorem claim7_witness :
    track stFull (.byName "click") none .aborted =
      track stFull (.byOptions { name := some "click" }) none .aborted := by
  exact (claim7 stFull "site-1" rfl (by decide)).1 "click" .aborted

/-- C8, counterexample: `identify({sessionId: ''})` on a client whose
configured session id is `sess-cfg` sends `session = 'sess-cfg'`, not
the present (but empty) `sessionId` of the argument — `||` applies
truthiness, not presence, so the claim's "when present" fails. -/
theorem claim8_counterexample :
    (sentPayload (identify stFull [("sessionId", JsVal.str "")] .aborted).2).map
      (fun p => p.session) = some (some (JsVal.str "sess-cfg")) ∧
    some (JsVal.str "sess-cfg") ≠ some (JsVal.str "") := by
  refine ⟨rfl, by decide⟩

/-- C8 (amended): `identify(props)` on a configured client merges
`props` into the persistent bag (later wins per key), dispatches the
full merged bag as the payload data, leaves the whole config — its
session id included — unchanged, and sets the payload session to
`props.sessionId` when that value is present and truthy (non-empty),
and to the configured session id otherwise. -/
theorem claim8_amended (st : ClientState) (props : JsObj) (outc : FetchOutcome)
    (w u : String)
    (hw : st.options.websiteId = some w) (hw' : w ≠ "")
    (hh : st.options.hostUrl = some u) (hu : u ≠ "") :
    ((identify st props outc).1.properties = objMerge st.properties props) ∧
    (∀ k v, props.lookup k = some v →
      (identify st props outc).1.properties.lookup k = some v) ∧
    (∀ k, props.lookup k = none →
      (identify st props outc).1.properties.lookup k = st.properties.lookup k) ∧
    ((identify st props outc).1.options = st.options) ∧
    ((sentPayload (identify st props outc).2).map (fun p => p.data) =
      some (some (objMerge st.properties props))) ∧
    (∀ v, props.lookup "sessionId" = some v → truthy (some v) = true →
      (sentPayload (identify st props outc).2).map (fun p => p.session) =
        some (some v)) ∧
    (truthy (props.lookup "sessionId") = false →
      (sentPayload (identify st props outc).2).map (fun p => p.session) =
        some (st.options.sessionId.map .str)) := by
  have hcw : checkStr st.options.websiteId = some w := by simp [checkStr, hw, hw']
  have hch : checkStr st.options.hostUrl = some u := by simp [checkStr, hh, hu]
  refine ⟨by simp [identify, hcw], fun k v hkv => ?_, fun k hk => ?_,
    by simp [identify, hcw], by simp [identify, send, sentPayload, hcw, hch],
    fun v hv htr => ?_, fun hf => ?_⟩
  · simp only [identify, hcw]
    exact lookup_objMerge_right _ hkv
  · simp only [identify, hcw]
    exact lookup_objMerge_left _ hk
  · simp [identify, send, sentPayload, hcw, hch, hv, htr]
  · simp [identify, send, sentPayload, hcw, hch, hf]

/-- C8, witness at `identify({sessionId:'s1', plan:'pro'})`: the data is
the merged bag and the session is `s1`. -/
theorem claim8_witness :
    ((sentPayload (identify stFull
        [("sessionId", JsVal.str "s1"), ("plan", JsVal.str "pro")] .aborted).2).map
      (fun p => p.session) = some (some (JsVal.str "s1"))) ∧
    ((identify stFull
        [("sessionId", JsVal.str "s1"), ("plan", JsVal.str "pro")] .aborted).1.options =
      stFull.options) := by
  have h := claim8_amended stFull
    [("sessionId", JsVal.str "s1"), ("plan", JsVal.str "pro")] .aborted
    "site-1" "https://h.example" rfl (by decide) rfl (by decide)
  exact ⟨h.2.2.2.2.2.1 (JsVal.str "s1") (by decide) (by decide), h.2.2.2.1⟩

/-- C9, counterexample: `track` with an options object whose `name` is
the empty string dispatches a payload whose `name` field is the empty
string, not a payload without a name field as the claim states. -/
theorem claim9_counterexample :
    (sentPayload (track stFull (.byOptions { name := some "" }) none .aborted)).map
      (fun p => p.name) = some (some "") ∧
    some (some "") ≠ (some (none : Option String)) := by
  refine ⟨rfl, by decide⟩

/-- C9 (amended): with `websiteId` configured, `track` with an options
object never raises a validation error whatever the `name`; the
dispatched payload's `name` just copies the object's `name` — absent
when absent, the empty string when empty — unlike `trackEvent`, which
rejects an absent or empty name with a validation error naming
`name`. -/
theorem claim9_amended (st : ClientState) (o : TrackEventOptions)
    (ed : Option JsObj) (outc : FetchOutcome) (w : String)
    (hw : st.options.websiteId = some w) (hw' : w ≠ "") :
    (∀ f, (track st (.byOptions o) ed outc).result ≠ .error (.validation f)) ∧
    ((trackPayload w (.byOptions o) ed).name = o.name) ∧
    (o.name = none ∨ o.name = some "" →
      trackEvent st o outc = ⟨none, .error (.validation "name")⟩) := by
  have hcw : checkStr st.options.websiteId = some w := by simp [checkStr, hw, hw']
  refine ⟨fun f => ?_, rfl, fun hn => ?_⟩
  · simp only [track, hcw, send]
    cases hch : checkStr st.options.hostUrl with
    | none => simp
    | some u =>
      cases outc with
      | resp r =>
        by_cases hok : r.ok = true
        · simp [hok]
        · by_cases h429 : r.status = 429 <;> simp [hok, h429]
      | aborted => simp
      | typeError m => simp
      | failed m => simp
  · rcases hn with h | h <;> simp [trackEvent, hcw, truthyStr, h]

/-- C9, witness: empty name passes through `track` but is rejected by
`trackEvent`. -/
theorem claim9_witness :
    (trackPayload "site-1" (.byOptions { name := some "" }) none).name = some "" ∧
    trackEvent stFull { name := some "" } .aborted =
      ⟨none, .error (.validation "name")⟩ := by
  have h := claim9_amended stFull { name := some "" } none .aborted "site-1"
    rfl (by decide)
  exact ⟨h.2.1, h.2.2 (Or.inr rfl)⟩

/-- C10: when the `identify` argument contains a `sessionId` key, the
key is itself merged into the persistent bag, so the dispatched data
of this call — and of a subsequent `identify` whose argument lacks
`sessionId` — contains that entry; `clearProperty('sessionId')` or
`reset()` removes it. -/
theorem claim10 (st : ClientState) (props props2 : JsObj)
    (outc outc2 : FetchOutcome) (v : JsVal) (w u : String)
    (hw : st.options.websiteId = some w) (hw' : w ≠ "")
    (hh : st.options.hostUrl = some u) (hu : u ≠ "")
    (hv : props.lookup "sessionId" = some v) :
    ((identify st props outc).1.properties.lookup "sessionId" = some v) ∧
    (payloadDataGet (identify st props outc).2 "sessionId" = some v) ∧
    (props2.lookup "sessionId" = none →
      payloadDataGet (identify (identify st props outc).1 props2 outc2).2
          "sessionId" = some v ∧
      (identify (identify st props outc).1 props2 outc2).1.properties.lookup
          "sessionId" = some v) ∧
    ((clearProperty (identify st props outc).1 "sessionId").properties.lookup
        "sessionId" = none) ∧
    ((resetProps (identify st props outc).1).properties.lookup "sessionId" = none) := by
  have hcw : checkStr st.options.websiteId = some w := by simp [checkStr, hw, hw']
  have hch : checkStr st.options.hostUrl = some u := by simp [checkStr, hh, hu]
  have hbag : (identify st props outc).1.properties = objMerge st.properties props := by
    simp [identify, hcw]
  have h1 : (identify st props outc).1.properties.lookup "sessionId" = some v := by
    rw [hbag]; exact lookup_objMerge_right _ hv
  refine ⟨h1, ?_, fun h2 => ⟨?_, ?_⟩, ?_, by simp [resetProps]⟩
  · simp only [identify, hcw, send, hch, sentPayload, payloadDataGet]
    exact lookup_objMerge_right _ hv
  · have hopt : (identify st props outc).1.options = st.options := by
      simp [identify, hcw]
    simp only [identify, hopt, hcw, send, hch, sentPayload, payloadDataGet]
    rw [lookup_objMerge_left _ h2, ← hbag]
    exact h1
  · have hopt : (identify st props outc).1.options = st.options := by
      simp [identify, hcw]
    simp only [identify, hopt, hcw]
    rw [lookup_objMerge_left _ h2, ← hbag]
    exact h1
  · simp only [clearProperty]
    rw [lookup_filter_key (fun key => decide (key ≠ "sessionId"))]
    simp

/-- C10, witness: `identify({sessionId:'s1', plan:'pro'})` stores the
`sessionId` key in the bag and in the dispatched data. -/
theorem claim10_witness :
    payloadDataGet (identify stFull
        [("sessionId", JsVal.str "s1"), ("plan", JsVal.str "pro")] .aborted).2
      "sessionId" = some (JsVal.str "s1") := by
  exact (claim10 stFull [("sessionId", JsVal.str "s1"), ("plan", JsVal.str "pro")]
    [] .aborted .aborted (JsVal.str "s1") "site-1" "https://h.example"
    rfl (by decide) rfl (by decide) (by decide)).2.1

end Entro
